import Mathlib

/-!
Shallow embedding of the SYCL/FPGA declaration-attribute semantic checks of
clang/lib/Sema/SemaDeclAttr.cpp (intel/llvm): the attribute-argument
evaluation, per-kind validation, duplicate-merge logic, cross-attribute
consistency checks and implicit-attribute synthesis for the attributes
bank_width (bankwidth), num_banks (numbanks), bank_bits, fpga_memory,
fpga_register, reqd_work_group_size, max_work_group_size,
num_simd_work_items and max_global_work_dim.

Attribute argument expressions are modelled by the three observations the
source makes of them: value-dependence (Expr::isValueDependent), being a
ConstantExpr with a known folded integer result (dyn_cast ConstantExpr plus
getResultAsAPSInt), and evaluability to an integer (Expr::EvaluateAsInt,
which also succeeds on the IntegerLiteral nodes the implicit num_banks
synthesis creates).  A declaration is modelled by the per-kind lists of
attached semantic attributes (Decl::addAttr appends, Decl::getAttr returns
the first attribute of the kind, Decl::dropAttr removes all of them).
-/

namespace SemaAttr

/-- Attribute argument expression as observed by the checks in the source:
value-dependent, an IntegerLiteral with value v (created by the implicit
num_banks synthesis; not a ConstantExpr), or a ConstantExpr with folded
result v (what VerifyIntegerConstantExpression produces). -/
inductive AttrExpr where
  | dep : AttrExpr
  | intLit : Int → AttrExpr
  | constE : Int → AttrExpr
deriving DecidableEq, Repr

/-- Expr::isValueDependent. -/
def AttrExpr.isValueDependent : AttrExpr → Bool
  | .dep => true
  | _ => false

/-- dyn_cast to ConstantExpr followed by getResultAsAPSInt: succeeds only on
a ConstantExpr. -/
def AttrExpr.asConstantExpr : AttrExpr → Option Int
  | .constE v => some v
  | _ => none

/-- Expr::EvaluateAsInt on a non-dependent expression (also succeeds on an
IntegerLiteral). -/
def AttrExpr.evalAsInt : AttrExpr → Option Int
  | .intLit v => some v
  | .constE v => some v
  | .dep => none

/-- Diagnostics emitted by the modelled checks, identified by the clang
diagnostic id they correspond to. -/
inductive Diag where
  | requiresPositiveInteger
  | requiresNonNegativeInteger
  | notPowerOfTwo
  | fpgaIncorrectVariable
  | duplicateWarn
  | duplicateWarnExact
  | duplicateErr
  | argCountError
  | bankBitsNumBanksConflict
  | bankBitsNonConsecutive
  | conflictingAttributes
  | numKernelWrongReqdWgSize
  | xyzMustBeOne
  | mutualExclusion
  | notePrevious
  | noteConflicting
deriving DecidableEq, Repr

/-- A single-integer-argument semantic attribute (bank_width, num_banks,
num_simd_work_items, max_global_work_dim): stored value expression and the
Attr::isImplicit flag. -/
structure IntAttr where
  value : AttrExpr
  implicit : Bool
deriving DecidableEq, Repr

/-- A no-argument semantic attribute (fpga_memory, fpga_register): only the
Attr::isImplicit flag is observed. -/
structure FlagAttr where
  implicit : Bool
deriving DecidableEq, Repr

/-- The bank_bits semantic attribute: the stored argument expression list. -/
structure BankBitsAttr where
  args : List AttrExpr
  implicit : Bool
deriving DecidableEq, Repr

/-- The reqd_work_group_size semantic attribute: X dimension mandatory,
Y and Z dimensions optional (null when unspecified). -/
structure ReqdWGSAttr where
  xDim : AttrExpr
  yDim : Option AttrExpr
  zDim : Option AttrExpr
deriving DecidableEq, Repr

/-- The max_work_group_size semantic attribute: always three dimensions. -/
structure MaxWGSAttr where
  xDim : AttrExpr
  yDim : AttrExpr
  zDim : AttrExpr
deriving DecidableEq, Repr

/-- The attribute store of one declaration: one append-ordered list per
attribute kind (Decl::addAttr appends, Decl::getAttr takes the head,
Decl::dropAttr clears the list of the kind). -/
structure DeclState where
  memory : List FlagAttr
  fpgaRegister : List FlagAttr
  bankWidth : List IntAttr
  numBanks : List IntAttr
  bankBits : List BankBitsAttr
  reqdWGS : List ReqdWGSAttr
  maxWGS : List MaxWGSAttr
  numSimd : List IntAttr
  maxGlobalWorkDim : List IntAttr
deriving DecidableEq, Repr

/-- A declaration with no attributes attached. -/
def emptyDecl : DeclState :=
  { memory := [], fpgaRegister := [], bankWidth := [], numBanks := [],
    bankBits := [], reqdWGS := [], maxWGS := [], numSimd := [],
    maxGlobalWorkDim := [] }

/-- The ambient facts about the compilation and the subject declaration that
the modelled checks consult: LangOpts.SYCLIsDevice, the result of
CheckValidFPGAMemoryAttributesVar for this declaration (true means the
declaration is not a kind of variable the FPGA memory attributes accept),
and whether the declaration is a ParmVar. -/
structure Ctx where
  syclIsDevice : Bool
  fpgaMemVarInvalid : Bool
  isParmVar : Bool
deriving DecidableEq, Repr

/-- APInt::isPowerOf2 as consulted after the strict-positivity gate: a
positive value with exactly one set bit, i.e. a power of two. -/
def natIsPow2 (n : Nat) : Bool :=
  (List.range (n + 1)).any (fun k => n == 2 ^ k)

/-- APSInt::ceilLogBase2 for positive values: the least k with n ≤ 2 ^ k,
computed by fuelled halving. -/
def ceilLog2Fuel : Nat → Nat → Nat
  | 0, _ => 0
  | fuel + 1, n => if n ≤ 1 then 0 else ceilLog2Fuel fuel ((n + 1) / 2) + 1

/-- ceil(log2 n) for n ≥ 1 (returns 0 at 0, which no validated value hits). -/
def ceilLog2 (n : Nat) : Nat := ceilLog2Fuel n n

/-- Attach an implicit default fpga_memory attribute when the declaration
has none (the trailing step shared by the memory-banking attribute
handlers). -/
def ensureImplicitMemory (D : DeclState) : DeclState :=
  if D.memory.isEmpty then { D with memory := D.memory ++ [⟨true⟩] } else D

/-- Tail of Sema::AddSYCLIntelBankWidthAttr: synthesize the implicit
fpga_memory default if needed, then attach the bank_width attribute. -/
def attachBankWidth (D : DeclState) (E : AttrExpr) : DeclState × List Diag :=
  let D1 := ensureImplicitMemory D
  ({ D1 with bankWidth := D1.bankWidth ++ [⟨E, false⟩] }, [])

/-- Sema::AddSYCLIntelBankWidthAttr: for a non-dependent argument, verify it
is an integer constant expression, require a strictly positive power of two,
check the FPGA-variable subject gate, drop (possibly diagnosing) a duplicate
whose stored value is a known constant, and otherwise attach (adding an
implicit fpga_memory default first).  A value-dependent argument is attached
unvalidated. -/
def addSYCLIntelBankWidthAttr (C : Ctx) (D : DeclState) (E : AttrExpr) :
    DeclState × List Diag :=
  match E.evalAsInt with
  | some v =>
    if v ≤ 0 then (D, [.requiresPositiveInteger])
    else if natIsPow2 v.toNat = false then (D, [.notPowerOfTwo])
    else if C.syclIsDevice && C.fpgaMemVarInvalid then
      (D, [.fpgaIncorrectVariable])
    else
      match D.bankWidth.head? with
      | some declAttr =>
        match declAttr.value.asConstantExpr with
        | some dv =>
          if v ≠ dv then (D, [.duplicateWarn, .notePrevious]) else (D, [])
        | none => attachBankWidth D (.constE v)
      | none => attachBankWidth D (.constE v)
  | none => attachBankWidth D E

/-- Sema::MergeSYCLIntelBankWidthAttr: diagnose and drop when both the
existing and the merged attribute have known constant values that differ;
otherwise produce the attribute to attach. -/
def mergeSYCLIntelBankWidthAttr (D : DeclState) (A : IntAttr) :
    Option IntAttr × List Diag :=
  match D.bankWidth.head? with
  | some declAttr =>
    match declAttr.value.asConstantExpr, A.value.asConstantExpr with
    | some dv, some mv =>
      if dv ≠ mv then (none, [.duplicateWarn, .notePrevious])
      else (some ⟨A.value, false⟩, [])
    | _, _ => (some ⟨A.value, false⟩, [])
  | none => (some ⟨A.value, false⟩, [])

/-- Tail of Sema::AddSYCLIntelNumBanksAttr: synthesize the implicit
fpga_memory default if needed, drop an implicit num_banks default, then
attach the num_banks attribute. -/
def attachNumBanks (D : DeclState) (E : AttrExpr) : DeclState × List Diag :=
  let D1 := ensureImplicitMemory D
  let D2 :=
    match D1.numBanks.head? with
    | some nba => if nba.implicit then { D1 with numBanks := [] } else D1
    | none => D1
  ({ D2 with numBanks := D2.numBanks ++ [⟨E, false⟩] }, [])

/-- FPGA-variable subject gate, duplicate check and attach of
Sema::AddSYCLIntelNumBanksAttr, reached with a validated constant value. -/
def numBanksAfterChecks (C : Ctx) (D : DeclState) (v : Int) :
    DeclState × List Diag :=
  if C.syclIsDevice && C.fpgaMemVarInvalid then (D, [.fpgaIncorrectVariable])
  else
    match D.numBanks.head? with
    | some declAttr =>
      match declAttr.value.asConstantExpr with
      | some dv =>
        if v ≠ dv then (D, [.duplicateWarn, .notePrevious]) else (D, [])
      | none => attachNumBanks D (.constE v)
    | none => attachNumBanks D (.constE v)

/-- Sema::AddSYCLIntelNumBanksAttr: for a non-dependent argument, require a
strictly positive power of two, check consistency against an existing
bank_bits attribute (the bank_bits argument count must equal the ceiling
log2 of the num_banks value), then the FPGA-variable gate and the duplicate
check; on attach an implicit num_banks default is replaced.  A
value-dependent argument is attached unvalidated. -/
def addSYCLIntelNumBanksAttr (C : Ctx) (D : DeclState) (E : AttrExpr) :
    DeclState × List Diag :=
  match E.evalAsInt with
  | some v =>
    if v ≤ 0 then (D, [.requiresPositiveInteger])
    else if natIsPow2 v.toNat = false then (D, [.notPowerOfTwo])
    else
      match D.bankBits.head? with
      | some bba =>
        if bba.args.length ≠ ceilLog2 v.toNat then
          (D, [.bankBitsNumBanksConflict])
        else numBanksAfterChecks C D v
      | none => numBanksAfterChecks C D v
  | none => attachNumBanks D E

/-- One iteration of the argument loop of Sema::AddSYCLIntelBankBitsAttr:
a dependent argument passes through with placeholder value 0 and marks the
list dependent; a non-dependent argument is verified as an integer constant
expression, required to be non-negative, and converted to a ConstantExpr. -/
def evalBankBitsArg (E : AttrExpr) : Except Diag (AttrExpr × Int × Bool) :=
  match E with
  | .dep => .ok (.dep, 0, true)
  | .intLit v =>
    if v < 0 then .error .requiresNonNegativeInteger
    else .ok (.constE v, v, false)
  | .constE v =>
    if v < 0 then .error .requiresNonNegativeInteger
    else .ok (.constE v, v, false)

/-- The argument loop of Sema::AddSYCLIntelBankBitsAttr: converted argument
list, extracted values, and whether any argument was value-dependent; stops
at the first non-negative violation. -/
def evalBankBitsArgs : List AttrExpr →
    Except Diag (List AttrExpr × List Int × Bool)
  | [] => .ok ([], [], false)
  | e :: rest =>
    match evalBankBitsArg e with
    | .error d => .error d
    | .ok (e1, v, dep) =>
      match evalBankBitsArgs rest with
      | .error d => .error d
      | .ok (es, vs, deps) => .ok (e1 :: es, v :: vs, dep || deps)

/-- The inner consecutive-step loop: every element steps from its
predecessor by exactly the given step. -/
def chainStep (step : Int) : List Int → Bool
  | [] => true
  | [_] => true
  | a :: b :: rest => (b == a + step) && chainStep step (b :: rest)

/-- The bank_bits consecutiveness check: direction fixed by the first two
values, then every adjacent pair must step by +1 (ascending) or -1. -/
def consecutiveVals : List Int → Bool
  | [] => true
  | [_] => true
  | a :: b :: rest =>
    chainStep (if a < b then 1 else -1) (a :: b :: rest)

/-- Tail of Sema::AddSYCLIntelBankBitsAttr after the num_banks
check/synthesis: FPGA-variable subject gate, implicit fpga_memory default,
attach. -/
def bankBitsFinish (C : Ctx) (D : DeclState) (args : List AttrExpr) :
    DeclState × List Diag :=
  if C.syclIsDevice && C.fpgaMemVarInvalid then (D, [.fpgaIncorrectVariable])
  else
    let D1 := ensureImplicitMemory D
    ({ D1 with bankBits := D1.bankBits ++ [⟨args, false⟩] }, [])

/-- Sema::AddSYCLIntelBankBitsAttr: evaluate the arguments (each
non-dependent one must be a non-negative integer constant), require the
fully-known list to be consecutive with step +1 or -1, then check an
existing num_banks attribute for consistency (argument count versus ceiling
log2 of its value) or, when none exists, synthesize an implicit num_banks
whose value is 1 shifted left by the argument count (a 32-bit
IntegerLiteral), and finally pass the subject gate and attach. -/
def addSYCLIntelBankBitsAttr (C : Ctx) (D : DeclState) (es : List AttrExpr) :
    DeclState × List Diag :=
  match evalBankBitsArgs es with
  | .error d => (D, [d])
  | .ok (args, vals, listDep) =>
    if listDep = false ∧ 1 < vals.length ∧ consecutiveVals vals = false then
      (D, [.bankBitsNonConsecutive])
    else
      match D.numBanks.head? with
      | some nba =>
        match nba.value.evalAsInt with
        | some v =>
          if args.length ≠ ceilLog2 v.toNat then
            (D, [.bankBitsNumBanksConflict])
          else bankBitsFinish C D args
        | none => bankBitsFinish C D args
      | none =>
        let nb : IntAttr :=
          ⟨.intLit (Int.ofNat ((2 ^ args.length) % 2 ^ 32)), true⟩
        bankBitsFinish C { D with numBanks := D.numBanks ++ [nb] } args

/-- handleSYCLIntelBankBitsAttr: checkForDuplicateAttribute warns about a
non-implicit existing bank_bits attribute but its result is discarded, then
the arity is checked and Sema::AddSYCLIntelBankBitsAttr runs. -/
def handleSYCLIntelBankBitsAttr (C : Ctx) (D : DeclState)
    (es : List AttrExpr) : DeclState × List Diag :=
  let dupDiags : List Diag :=
    match D.bankBits.head? with
    | some a => if a.implicit = false then [.duplicateWarnExact] else []
    | none => []
  if es.length < 1 then (D, dupDiags ++ [.argCountError])
  else
    let (D1, ds) := addSYCLIntelBankBitsAttr C D es
    (D1, dupDiags ++ ds)

/-- Subject gate and attach of handleSYCLIntelRegisterAttr: the
FPGA-variable gate for fpga_register also excludes parameters. -/
def registerSubjectGateAndAttach (C : Ctx) (D : DeclState) :
    DeclState × List Diag :=
  if C.syclIsDevice && (C.isParmVar || C.fpgaMemVarInvalid) then
    (D, [.fpgaIncorrectVariable])
  else ({ D with fpgaRegister := D.fpgaRegister ++ [⟨false⟩] }, [])

/-- handleSYCLIntelRegisterAttr: warn about a non-implicit duplicate and
drop, check the FPGA-variable subject gate, attach otherwise. -/
def handleSYCLIntelRegisterAttr (C : Ctx) (D : DeclState) :
    DeclState × List Diag :=
  match D.fpgaRegister.head? with
  | some ex =>
    if ex.implicit = false then (D, [.duplicateWarnExact, .notePrevious])
    else registerSubjectGateAndAttach C D
  | none => registerSubjectGateAndAttach C D

/-- DupArgResult of AreArgValuesIdentical. -/
inductive DupArgResult where
  | unknown
  | same
  | different
deriving DecidableEq, Repr

/-- AreArgValuesIdentical: two null dimensions are the same, null versus
non-null differ, two non-ConstantExpr-comparable operands are unknown,
otherwise the folded results are compared. -/
def areArgValuesIdentical : Option AttrExpr → Option AttrExpr → DupArgResult
  | none, none => .same
  | none, some _ => .different
  | some _, none => .different
  | some l, some r =>
    match l.asConstantExpr, r.asConstantExpr with
    | some lv, some rv => if lv = rv then .same else .different
    | _, _ => .unknown

/-- Sema::AnyWorkGroupSizesDiffer. -/
def anyWorkGroupSizesDiffer (lx ly lz rx ry rz : Option AttrExpr) : Bool :=
  [areArgValuesIdentical lx rx, areArgValuesIdentical ly ry,
   areArgValuesIdentical lz rz].any (fun r => r = .different)

/-- Sema::AllWorkGroupSizesSame. -/
def allWorkGroupSizesSame (lx ly lz rx ry rz : Option AttrExpr) : Bool :=
  [areArgValuesIdentical lx rx, areArgValuesIdentical ly ry,
   areArgValuesIdentical lz rz].all (fun r => r = .same)

/-- dyn_cast_or_null to ConstantExpr on an optional dimension: an absent
dimension maps to some none, a ConstantExpr to its value, and a present but
non-constant dimension to none (cannot be tested yet). -/
def optDimConst : Option AttrExpr → Option (Option Int)
  | none => some none
  | some e =>
    match e.asConstantExpr with
    | some v => some (some v)
    | none => none

/-- Sema::CheckMaxAllowedWorkGroupSize: false (no violation reportable) when
any needed operand is not yet a constant; otherwise, after reordering the
reqd_work_group_size dimensions in SYCL device mode so that the last
specified dimension comes first, report whether any required dimension
exceeds the corresponding max_work_group_size dimension (compared against
the max dimensions in reverse order). -/
def checkMaxAllowedWorkGroupSize (syclIsDevice : Bool) (rx : AttrExpr)
    (ry rz : Option AttrExpr) (mx my mz : AttrExpr) : Bool :=
  match rx.asConstantExpr, mx.asConstantExpr, my.asConstantExpr,
      mz.asConstantExpr, optDimConst ry, optDimConst rz with
  | some rxv, some mxv, some myv, some mzv, some ryv, some rzv =>
    let dims : Int × Option Int × Option Int :=
      if syclIsDevice && ry.isSome then
        if rz.isSome then (rzv.getD rxv, ryv, some rxv)
        else (ryv.getD rxv, some rxv, rzv)
      else (rxv, ryv, rzv)
    let firstCheck := decide (mzv.toNat < dims.1.toNat)
    let secondCheck :=
      match dims.2.1 with
      | some sv => decide (myv.toNat < sv.toNat)
      | none => false
    let thirdCheck :=
      match dims.2.2 with
      | some tv => decide (mxv.toNat < tv.toNat)
      | none => false
    firstCheck || secondCheck || thirdCheck
  | _, _, _, _, _, _ => false

/-- CheckWorkGroupSize (num_simd_work_items versus reqd_work_group_size):
false when a needed operand is not yet constant; otherwise report whether
the num_simd_work_items value does not evenly divide the last specified
(fastest-incrementing) reqd_work_group_size dimension. -/
def checkWorkGroupSize (nswi : AttrExpr) (rx : AttrExpr)
    (ry rz : Option AttrExpr) : Bool :=
  match nswi.asConstantExpr, rx.asConstantExpr, optDimConst ry,
      optDimConst rz with
  | some nv, some rxv, some ryv, some rzv =>
    let lastDim : Int := rzv.getD (ryv.getD rxv)
    decide (lastDim.toNat % nv.toNat ≠ 0)
  | _, _, _, _ => false

/-- InvalidWorkGroupSizeAttrs: with all operands constant, report whether
max_global_work_dim is zero while some work-group-size dimension is not
one (absent dimensions count as one). -/
def invalidWorkGroupSizeAttrs (mg : AttrExpr) (x : AttrExpr)
    (y z : Option AttrExpr) : Bool :=
  match mg.asConstantExpr, x.asConstantExpr, optDimConst y, optDimConst z with
  | some mgv, some xv, some yv, some zv =>
    decide (mgv = 0) &&
      (decide (xv ≠ 1) ||
        (match yv with | some v => decide (v ≠ 1) | none => false) ||
        (match zv with | some v => decide (v ≠ 1) | none => false))
  | _, _, _, _ => false

/-- CheckAndConvertArg shared by the work-group-size attribute adders: a
dependent argument passes through, a non-dependent one must be an integer
constant expression with a strictly positive value and is converted to a
ConstantExpr; none signals a diagnosed argument. -/
def convertWGSArg : AttrExpr → Option AttrExpr × List Diag
  | e =>
    match e.evalAsInt with
    | none => (some e, [])
    | some v =>
      if v ≤ 0 then (none, [.requiresPositiveInteger])
      else (some (.constE v), [])

/-- CheckAndConvertArg on an optional dimension (absent dimensions pass). -/
def convertOptWGSArg : Option AttrExpr → Option (Option AttrExpr) × List Diag
  | none => (some none, [])
  | some e =>
    let (r, ds) := convertWGSArg e
    (r.map some, ds)

/-- Duplicate check and attach of Sema::AddSYCLReqdWorkGroupSizeAttr:
a known-different existing attribute is diagnosed as an error and the new
one dropped, a known-identical one silently absorbs it, anything else is
attached. -/
def reqdDupCheckAndAttach (D : DeclState) (x : AttrExpr)
    (y z : Option AttrExpr) : DeclState × List Diag :=
  match D.reqdWGS.head? with
  | some ex =>
    if anyWorkGroupSizesDiffer (some x) y z (some ex.xDim) ex.yDim ex.zDim then
      (D, [.duplicateErr, .notePrevious])
    else if allWorkGroupSizesSame (some x) y z (some ex.xDim) ex.yDim ex.zDim
      then (D, [])
    else ({ D with reqdWGS := D.reqdWGS ++ [⟨x, y, z⟩] }, [])
  | none => ({ D with reqdWGS := D.reqdWGS ++ [⟨x, y, z⟩] }, [])

/-- num_simd_work_items cross-check of Sema::AddSYCLReqdWorkGroupSizeAttr. -/
def reqdSimdCheck (D : DeclState) (x : AttrExpr) (y z : Option AttrExpr) :
    DeclState × List Diag :=
  match D.numSimd.head? with
  | some ns =>
    if checkWorkGroupSize ns.value x y z then
      (D, [.numKernelWrongReqdWgSize, .noteConflicting])
    else reqdDupCheckAndAttach D x y z
  | none => reqdDupCheckAndAttach D x y z

/-- max_work_group_size cross-check of Sema::AddSYCLReqdWorkGroupSizeAttr. -/
def reqdMaxCheck (C : Ctx) (D : DeclState) (x : AttrExpr)
    (y z : Option AttrExpr) : DeclState × List Diag :=
  match D.maxWGS.head? with
  | some mw =>
    if checkMaxAllowedWorkGroupSize C.syclIsDevice x y z mw.xDim mw.yDim
        mw.zDim then
      (D, [.conflictingAttributes, .noteConflicting])
    else reqdSimdCheck D x y z
  | none => reqdSimdCheck D x y z

/-- Sema::AddSYCLReqdWorkGroupSizeAttr: convert and positivity-check the up
to three dimension arguments, diagnose (without dropping) a zero
max_global_work_dim with non-unit dimensions, then run the
max_work_group_size and num_simd_work_items cross-checks and the duplicate
logic. -/
def addSYCLReqdWorkGroupSizeAttr (C : Ctx) (D : DeclState) (x : AttrExpr)
    (y z : Option AttrExpr) : DeclState × List Diag :=
  let (rX, dX) := convertWGSArg x
  let (rY, dY) := convertOptWGSArg y
  let (rZ, dZ) := convertOptWGSArg z
  match rX, rY, rZ with
  | some x1, some y1, some z1 =>
    let mgDiags : List Diag :=
      match D.maxGlobalWorkDim.head? with
      | some mg =>
        if invalidWorkGroupSizeAttrs mg.value x1 y1 z1 then [.xyzMustBeOne]
        else []
      | none => []
    let (D1, ds) := reqdMaxCheck C D x1 y1 z1
    (D1, mgDiags ++ ds)
  | _, _, _ => (D, dX ++ dY ++ dZ)

/-- Duplicate check and attach of Sema::AddSYCLIntelMaxWorkGroupSizeAttr
(the duplicate with a known different value is a warning here). -/
def maxWGSDupCheckAndAttach (D : DeclState) (x y z : AttrExpr) :
    DeclState × List Diag :=
  match D.maxWGS.head? with
  | some ex =>
    if anyWorkGroupSizesDiffer (some x) (some y) (some z) (some ex.xDim)
        (some ex.yDim) (some ex.zDim) then
      (D, [.duplicateWarn, .notePrevious])
    else if allWorkGroupSizesSame (some x) (some y) (some z) (some ex.xDim)
        (some ex.yDim) (some ex.zDim) then (D, [])
    else ({ D with maxWGS := D.maxWGS ++ [⟨x, y, z⟩] }, [])
  | none => ({ D with maxWGS := D.maxWGS ++ [⟨x, y, z⟩] }, [])

/-- max_global_work_dim check of Sema::AddSYCLIntelMaxWorkGroupSizeAttr
(drops the new attribute, unlike the reqd_work_group_size variant). -/
def maxWGSGlobalDimCheck (D : DeclState) (x y z : AttrExpr) :
    DeclState × List Diag :=
  match D.maxGlobalWorkDim.head? with
  | some mg =>
    if invalidWorkGroupSizeAttrs mg.value x (some y) (some z) then
      (D, [.xyzMustBeOne])
    else maxWGSDupCheckAndAttach D x y z
  | none => maxWGSDupCheckAndAttach D x y z

/-- Sema::AddSYCLIntelMaxWorkGroupSizeAttr: convert and positivity-check the
three dimensions, cross-check against an existing reqd_work_group_size,
check max_global_work_dim, then the duplicate logic. -/
def addSYCLIntelMaxWorkGroupSizeAttr (C : Ctx) (D : DeclState)
    (x y z : AttrExpr) : DeclState × List Diag :=
  let (rX, dX) := convertWGSArg x
  let (rY, dY) := convertWGSArg y
  let (rZ, dZ) := convertWGSArg z
  match rX, rY, rZ with
  | some x1, some y1, some z1 =>
    match D.reqdWGS.head? with
    | some rw =>
      if checkMaxAllowedWorkGroupSize C.syclIsDevice rw.xDim rw.yDim rw.zDim
          x1 y1 z1 then
        (D, [.conflictingAttributes, .noteConflicting])
      else maxWGSGlobalDimCheck D x1 y1 z1
    | none => maxWGSGlobalDimCheck D x1 y1 z1
  | _, _, _ => (D, dX ++ dY ++ dZ)

/-- reqd_work_group_size cross-check and attach tail of
Sema::AddSYCLIntelNumSimdWorkItemsAttr, reached with a validated value. -/
def numSimdReqdCheckAndAttach (D : DeclState) (E : AttrExpr) :
    DeclState × List Diag :=
  match D.reqdWGS.head? with
  | some rw =>
    if checkWorkGroupSize E rw.xDim rw.yDim rw.zDim then
      (D, [.numKernelWrongReqdWgSize, .noteConflicting])
    else ({ D with numSimd := D.numSimd ++ [⟨E, false⟩] }, [])
  | none => ({ D with numSimd := D.numSimd ++ [⟨E, false⟩] }, [])

/-- Sema::AddSYCLIntelNumSimdWorkItemsAttr: for a non-dependent argument,
require a strictly positive integer constant, run the duplicate check, then
the reqd_work_group_size divisibility cross-check, then attach.  A
value-dependent argument is attached unvalidated. -/
def addSYCLIntelNumSimdWorkItemsAttr (_C : Ctx) (D : DeclState)
    (E : AttrExpr) : DeclState × List Diag :=
  match E.evalAsInt with
  | some v =>
    if v ≤ 0 then (D, [.requiresPositiveInteger])
    else
      match D.numSimd.head? with
      | some declAttr =>
        match declAttr.value.asConstantExpr with
        | some dv =>
          if v ≠ dv then (D, [.duplicateWarn, .notePrevious]) else (D, [])
        | none => numSimdReqdCheckAndAttach D (.constE v)
      | none => numSimdReqdCheckAndAttach D (.constE v)
  | none => ({ D with numSimd := D.numSimd ++ [⟨E, false⟩] }, [])

/-- Modelled from the spec: the mutual-exclusion rule between the
fpga_register decoration and the memory-banking decorations (the doc
comments in the source state the bankwidth and numbanks attributes are
incompatible with the register attribute, but the declarative exclusion
table and its generated checker, consulted by ProcessDeclAttribute before
the per-kind handler runs, are not among the provided sources).  Per the
spec a MutualExclusionError is emitted and the arriving decoration is not
attached when the other kind is already explicitly present. -/
def processNumBanksWithExclusion (C : Ctx) (D : DeclState) (E : AttrExpr) :
    DeclState × List Diag :=
  if D.fpgaRegister.any (fun a => a.implicit = false) then
    (D, [.mutualExclusion])
  else addSYCLIntelNumBanksAttr C D E

/-! Helper lemmas about the embedding, shared by the claim theorems. -/

theorem ensureImplicitMemory_bankWidth (D : DeclState) :
    (ensureImplicitMemory D).bankWidth = D.bankWidth := by
  unfold ensureImplicitMemory; split <;> rfl

theorem ensureImplicitMemory_numBanks (D : DeclState) :
    (ensureImplicitMemory D).numBanks = D.numBanks := by
  unfold ensureImplicitMemory; split <;> rfl

theorem ensureImplicitMemory_bankBits (D : DeclState) :
    (ensureImplicitMemory D).bankBits = D.bankBits := by
  unfold ensureImplicitMemory; split <;> rfl

/-- A convenient concrete context: SYCL device compilation, a variable the
FPGA memory attributes accept, not a parameter. -/
def C0 : Ctx :=
  { syclIsDevice := true, fpgaMemVarInvalid := false, isParmVar := false }

/-- A declaration carrying one explicit bank_width attribute with known
constant value. -/
def bwMemDecl (v : Int) : DeclState :=
  { emptyDecl with memory := [⟨true⟩], bankWidth := [⟨.constE v, false⟩] }

/-- A declaration carrying one explicit num_banks attribute with known
constant value. -/
def nbMemDecl (v : Int) : DeclState :=
  { emptyDecl with memory := [⟨true⟩], numBanks := [⟨.constE v, false⟩] }

/-- A declaration carrying one explicit num_simd_work_items attribute. -/
def nsDecl (v : Int) : DeclState :=
  { emptyDecl with numSimd := [⟨.constE v, false⟩] }

/-- A declaration carrying one reqd_work_group_size attribute with three
known constant dimensions. -/
def reqdDecl (a b c : Int) : DeclState :=
  { emptyDecl with
    reqdWGS := [⟨.constE a, some (.constE b), some (.constE c)⟩] }

/-- A declaration carrying one max_work_group_size attribute with three
known constant dimensions. -/
def maxDecl (a b c : Int) : DeclState :=
  { emptyDecl with maxWGS := [⟨.constE a, .constE b, .constE c⟩] }

/-- Claim C4: a non-dependent bank_width argument that is not strictly
positive or not a power of two is rejected with a range diagnostic and
nothing is attached; a positive power of two is attached with its evaluated
value stored. -/
theorem claim4_bankWidth_powerOfTwo_gate (v : Int) (C : Ctx)
    (D : DeclState) :
    (v ≤ 0 →
      addSYCLIntelBankWidthAttr C D (.intLit v) =
        (D, [.requiresPositiveInteger])) ∧
    (0 < v → natIsPow2 v.toNat = false →
      addSYCLIntelBankWidthAttr C D (.intLit v) = (D, [.notPowerOfTwo])) ∧
    (0 < v → natIsPow2 v.toNat = true →
      (C.syclIsDevice && C.fpgaMemVarInvalid) = false → D.bankWidth = [] →
      addSYCLIntelBankWidthAttr C D (.intLit v) =
        ({ ensureImplicitMemory D with
           bankWidth := [⟨.constE v, false⟩] }, [])) := by
  refine ⟨fun hle => ?_, fun hpos hnp => ?_, fun hpos hp hC hbw => ?_⟩
  · simp [addSYCLIntelBankWidthAttr, AttrExpr.evalAsInt, hle]
  · simp [addSYCLIntelBankWidthAttr, AttrExpr.evalAsInt, hnp,
      not_le.mpr hpos]
  · simp only [addSYCLIntelBankWidthAttr, AttrExpr.evalAsInt,
      not_le.mpr hpos, if_false, hp, hC, Bool.false_eq_true, hbw,
      List.head?_nil, attachBankWidth, if_neg (not_le.mpr hpos)]
    rw [ensureImplicitMemory_bankWidth, hbw]
    rfl

/-- Claim C4 witness: bank_width(6) is rejected as not a power of two,
bank_width(8) is attached with stored value 8. -/
theorem claim4_witness :
    addSYCLIntelBankWidthAttr C0 emptyDecl (.intLit 6) =
      (emptyDecl, [.notPowerOfTwo]) ∧
    addSYCLIntelBankWidthAttr C0 emptyDecl (.intLit 8) =
      ({ ensureImplicitMemory emptyDecl with
         bankWidth := [⟨.constE 8, false⟩] }, []) :=
  ⟨(claim4_bankWidth_powerOfTwo_gate 6 C0 emptyDecl).2.1 (by decide)
      (by decide),
   (claim4_bankWidth_powerOfTwo_gate 8 C0 emptyDecl).2.2 (by decide)
      (by decide) (by decide) (by decide)⟩

/-- Claim C9: a value-dependent bank_width argument is attached with the
unresolved expression, and re-running the validation once the argument is
the concrete value v produces the same diagnostics and the same
accept/reject outcome (with the same stored evaluated value on acceptance)
as attaching the literal v directly. -/
theorem claim9_deferred_evaluation_equivalence (v : Int) (C : Ctx) :
    (addSYCLIntelBankWidthAttr C emptyDecl .dep).1.bankWidth =
      [⟨.dep, false⟩] ∧
    (addSYCLIntelBankWidthAttr C
        (addSYCLIntelBankWidthAttr C emptyDecl .dep).1 (.intLit v)).2 =
      (addSYCLIntelBankWidthAttr C emptyDecl (.intLit v)).2 ∧
    ((addSYCLIntelBankWidthAttr C
        (addSYCLIntelBankWidthAttr C emptyDecl .dep).1
        (.intLit v)).1.bankWidth.getLast? = some ⟨.constE v, false⟩ ↔
      (addSYCLIntelBankWidthAttr C emptyDecl
        (.intLit v)).1.bankWidth.getLast? = some ⟨.constE v, false⟩) := by
  have hpend : (addSYCLIntelBankWidthAttr C emptyDecl .dep).1 =
      { emptyDecl with memory := [⟨true⟩], bankWidth := [⟨.dep, false⟩] } :=
    rfl
  refine ⟨by rw [hpend], ?_, ?_⟩ <;> rw [hpend] <;>
    simp only [addSYCLIntelBankWidthAttr, AttrExpr.evalAsInt,
      AttrExpr.asConstantExpr, attachBankWidth, ensureImplicitMemory,
      emptyDecl] <;>
    split_ifs <;> simp_all

/-- Claim C8 (modelled mutual exclusion): attaching fpga_register and then
numbanks(4) to the same variable produces a mutual-exclusion diagnostic and
numbanks is not attached. -/
theorem claim8_register_numBanks_exclusion :
    (handleSYCLIntelRegisterAttr C0 emptyDecl).1.fpgaRegister =
      [⟨false⟩] ∧
    (handleSYCLIntelRegisterAttr C0 emptyDecl).2 = [] ∧
    processNumBanksWithExclusion C0
        (handleSYCLIntelRegisterAttr C0 emptyDecl).1 (.intLit 4) =
      ((handleSYCLIntelRegisterAttr C0 emptyDecl).1, [.mutualExclusion]) ∧
    (handleSYCLIntelRegisterAttr C0 emptyDecl).1.numBanks = [] := by
  decide

/-- Claim C5 counterexample: attaching bank_bits(1,2) twice does not leave
exactly one instance with a silent second attachment; the second attachment
emits a duplicate warning and a second bank_bits instance is appended. -/
theorem claim5_counterexample :
    (handleSYCLIntelBankBitsAttr C0
        (handleSYCLIntelBankBitsAttr C0 emptyDecl
          [.intLit 1, .intLit 2]).1
        [.intLit 1, .intLit 2]).1.bankBits.length = 2 ∧
    (handleSYCLIntelBankBitsAttr C0
        (handleSYCLIntelBankBitsAttr C0 emptyDecl
          [.intLit 1, .intLit 2]).1
        [.intLit 1, .intLit 2]).2 = [.duplicateWarnExact] := by
  decide

/-- Claim C2 counterexample: for the non-repeatable bank_bits kind, an
arriving decoration with values (3,4) different from the attached explicit
(1,2) is not dropped: the engine emits a single duplicate warning and still
attaches the new instance. -/
theorem claim2_counterexample :
    (handleSYCLIntelBankBitsAttr C0
        (handleSYCLIntelBankBitsAttr C0 emptyDecl
          [.intLit 1, .intLit 2]).1
        [.intLit 3, .intLit 4]).1.bankBits =
      [⟨[.constE 1, .constE 2], false⟩, ⟨[.constE 3, .constE 4], false⟩] ∧
    (handleSYCLIntelBankBitsAttr C0
        (handleSYCLIntelBankBitsAttr C0 emptyDecl
          [.intLit 1, .intLit 2]).1
        [.intLit 3, .intLit 4]).2 = [.duplicateWarnExact] := by
  decide

/-- An explicit num_banks with a validated value arriving at a declaration
whose sole num_banks instance is implicit drops the implicit instance and
attaches the explicit one (shared workhorse for the claims about implicit
replacement and synthesis). -/
theorem numBanksExplicitReplacesImplicit (st : DeclState) (v w : Int)
    (C : Ctx) (himpl : st.numBanks = [⟨.intLit v, true⟩]) (hw : 0 < w)
    (hp : natIsPow2 w.toNat = true)
    (hbb : ∀ bba ∈ st.bankBits.head?, bba.args.length = ceilLog2 w.toNat)
    (hC : (C.syclIsDevice && C.fpgaMemVarInvalid) = false) :
    (addSYCLIntelNumBanksAttr C st (.intLit w)).1.numBanks =
      [⟨.constE w, false⟩] ∧
    (addSYCLIntelNumBanksAttr C st (.intLit w)).2 = [] := by
  have hres : addSYCLIntelNumBanksAttr C st (.intLit w) =
      attachNumBanks st (.constE w) := by
    rcases hB : st.bankBits.head? with _ | bba
    · simp [addSYCLIntelNumBanksAttr, AttrExpr.evalAsInt, not_le.mpr hw,
        hp, hB, numBanksAfterChecks, hC, himpl, AttrExpr.asConstantExpr]
    · have hlen := hbb bba (by rw [hB]; rfl)
      simp [addSYCLIntelNumBanksAttr, AttrExpr.evalAsInt, not_le.mpr hw,
        hp, hB, hlen, numBanksAfterChecks, hC, himpl,
        AttrExpr.asConstantExpr]
  rw [hres]
  simp [attachNumBanks, ensureImplicitMemory_numBanks, himpl]

/-- A num_banks with validated value arriving at a declaration whose
bank_bits argument count disagrees with the ceiling log2 of the value is
diagnosed as conflicting and dropped, leaving the declaration unchanged
(shared workhorse). -/
theorem numBanksBankBitsConflict (st : DeclState) (w : Int) (C : Ctx)
    (bba : BankBitsAttr) (hB : st.bankBits.head? = some bba) (hw : 0 < w)
    (hp : natIsPow2 w.toNat = true)
    (hne : bba.args.length ≠ ceilLog2 w.toNat) :
    addSYCLIntelNumBanksAttr C st (.intLit w) =
      (st, [.bankBitsNumBanksConflict]) := by
  simp [addSYCLIntelNumBanksAttr, AttrExpr.evalAsInt, not_le.mpr hw, hp,
    hB, hne]

/-- Claim C3: an implicit (synthesized) num_banks instance is removed and
replaced, unconditionally and irrespective of the two values, when an
explicit num_banks that passes validation arrives; afterwards the
declaration carries exactly one num_banks instance and it is explicit. -/
theorem claim3_explicit_replaces_implicit (st : DeclState) (v w : Int)
    (C : Ctx) (himpl : st.numBanks = [⟨.intLit v, true⟩]) (hw : 0 < w)
    (hp : natIsPow2 w.toNat = true)
    (hbb : ∀ bba ∈ st.bankBits.head?, bba.args.length = ceilLog2 w.toNat)
    (hC : (C.syclIsDevice && C.fpgaMemVarInvalid) = false) :
    (addSYCLIntelNumBanksAttr C st (.intLit w)).1.numBanks =
      [⟨.constE w, false⟩] ∧
    (addSYCLIntelNumBanksAttr C st (.intLit w)).2 = [] :=
  numBanksExplicitReplacesImplicit st v w C himpl hw hp hbb hC

/-- Claim C3 witness: an implicit num_banks of value 4 is replaced by an
arriving explicit num_banks(8) on a declaration without bank_bits. -/
theorem claim3_witness :
    (addSYCLIntelNumBanksAttr C0
        { emptyDecl with numBanks := [⟨.intLit 4, true⟩] }
        (.intLit 8)).1.numBanks = [⟨.constE 8, false⟩] ∧
    (addSYCLIntelNumBanksAttr C0
        { emptyDecl with numBanks := [⟨.intLit 4, true⟩] }
        (.intLit 8)).2 = [] :=
  claim3_explicit_replaces_implicit
    { emptyDecl with numBanks := [⟨.intLit 4, true⟩] } 4 8 C0 (by decide)
    (by decide) (by decide) (by decide) (by decide)

/-- The bank_bits argument loop on a list of constant expressions all of
which are non-negative: every argument survives, the values are extracted,
and the list is not value-dependent. -/
theorem evalBankBitsArgs_const_ok (vs : List Int) (h : ∀ u ∈ vs, 0 ≤ u) :
    evalBankBitsArgs (vs.map .constE) =
      .ok (vs.map .constE, vs, false) := by
  induction vs with
  | nil => rfl
  | cons a rest ih =>
    have ha : ¬(a < 0) := not_lt.mpr (h a (by simp))
    simp only [List.map_cons, evalBankBitsArgs, evalBankBitsArg, ha,
      if_false, ih (fun u hu => h u (by simp [hu])), Bool.false_or]

/-- The bank_bits argument loop on a list of constant expressions with some
negative member rejects with the non-negativity diagnostic. -/
theorem evalBankBitsArgs_const_neg (vs : List Int)
    (h : ¬ ∀ u ∈ vs, 0 ≤ u) :
    evalBankBitsArgs (vs.map .constE) =
      .error .requiresNonNegativeInteger := by
  induction vs with
  | nil => simp at h
  | cons a rest ih =>
    by_cases ha : a < 0
    · simp [evalBankBitsArgs, evalBankBitsArg, ha]
    · have hrest : ¬ ∀ u ∈ rest, 0 ≤ u := by
        intro hall
        exact h (by
          intro u hu
          rcases List.mem_cons.mp hu with rfl | hu2
          · exact not_lt.mp ha
          · exact hall u hu2)
      simp [evalBankBitsArgs, evalBankBitsArg, ha, ih hrest]

/-- Claim C10: bank_bits with two or more known integer arguments that are
not all non-negative or do not form a consecutive sequence stepping by
exactly plus or minus one is diagnosed and nothing is attached, the
declaration state being left unchanged. -/
theorem claim10_bankBits_consecutive_gate (vs : List Int) (C : Ctx)
    (D : DeclState) (hlen : 2 ≤ vs.length)
    (hbad : ¬((∀ u ∈ vs, 0 ≤ u) ∧ consecutiveVals vs = true)) :
    ∃ d, addSYCLIntelBankBitsAttr C D (vs.map .constE) = (D, [d]) ∧
      (d = .requiresNonNegativeInteger ∨ d = .bankBitsNonConsecutive) := by
  by_cases hnn : ∀ u ∈ vs, 0 ≤ u
  · have hcons : consecutiveVals vs = false := by
      rcases Bool.eq_false_or_eq_true (consecutiveVals vs) with hc | hc
      · exact absurd ⟨hnn, hc⟩ hbad
      · exact hc
    have hlt : 1 < vs.length := by omega
    refine ⟨.bankBitsNonConsecutive, ?_, Or.inr rfl⟩
    simp [addSYCLIntelBankBitsAttr, evalBankBitsArgs_const_ok vs hnn,
      hcons, hlt]
  · refine ⟨.requiresNonNegativeInteger, ?_, Or.inl rfl⟩
    simp only [addSYCLIntelBankBitsAttr, evalBankBitsArgs_const_neg vs hnn]

/-- Claim C10 witness: bank_bits(3,5) is diagnosed as non-consecutive and
the declaration is unchanged. -/
theorem claim10_witness :
    ∃ d, addSYCLIntelBankBitsAttr C0 emptyDecl
        [AttrExpr.constE 3, AttrExpr.constE 5] = (emptyDecl, [d]) ∧
      (d = .requiresNonNegativeInteger ∨ d = .bankBitsNonConsecutive) :=
  claim10_bankBits_consecutive_gate [3, 5] C0 emptyDecl (by decide)
    (by decide)

/-- Claim C1: attaching bank_bits with n non-dependent (valid) arguments to
a declaration without num_banks attaches an implicit num_banks of value
2 to the n; a subsequent explicit num_banks whose value v has ceiling log2
equal to n is accepted as consistent (replacing the implicit instance),
while one with a differing ceiling log2 is diagnosed as conflicting and not
attached. -/
theorem claim1_bankBits_numBanks_synthesis (vs : List Int) (C : Ctx)
    (D : DeclState) (n : Nat) (hnn : ∀ u ∈ vs, 0 ≤ u)
    (hcons : consecutiveVals vs = true) (hn : vs.length = n)
    (hn1 : 1 ≤ n) (hn31 : n ≤ 31) (hD : D.numBanks = [])
    (hDb : D.bankBits = [])
    (hC : (C.syclIsDevice && C.fpgaMemVarInvalid) = false) :
    (addSYCLIntelBankBitsAttr C D (vs.map .constE)).1.numBanks =
      [⟨.intLit ((2 : Int) ^ n), true⟩] ∧
    (addSYCLIntelBankBitsAttr C D (vs.map .constE)).1.bankBits =
      [⟨vs.map .constE, false⟩] ∧
    (addSYCLIntelBankBitsAttr C D (vs.map .constE)).2 = [] ∧
    (∀ v : Int, 0 < v → natIsPow2 v.toNat = true →
      (ceilLog2 v.toNat = n →
        (addSYCLIntelNumBanksAttr C
            (addSYCLIntelBankBitsAttr C D (vs.map .constE)).1
            (.intLit v)).1.numBanks = [⟨.constE v, false⟩] ∧
        (addSYCLIntelNumBanksAttr C
            (addSYCLIntelBankBitsAttr C D (vs.map .constE)).1
            (.intLit v)).2 = []) ∧
      (ceilLog2 v.toNat ≠ n →
        addSYCLIntelNumBanksAttr C
            (addSYCLIntelBankBitsAttr C D (vs.map .constE)).1
            (.intLit v) =
          ((addSYCLIntelBankBitsAttr C D (vs.map .constE)).1,
            [.bankBitsNumBanksConflict]))) := by
  have hmod : (2 ^ n) % 2 ^ 32 = 2 ^ n :=
    Nat.mod_eq_of_lt (Nat.pow_lt_pow_right (by omega) (by omega))
  have hcast : (Int.ofNat ((2 ^ (vs.map AttrExpr.constE).length) % 2 ^ 32))
      = (2 : Int) ^ n := by
    rw [List.length_map, hn, hmod]
    norm_cast
  have hstep : addSYCLIntelBankBitsAttr C D (vs.map .constE) =
      ({ ensureImplicitMemory
          { D with numBanks := [⟨.intLit ((2 : Int) ^ n), true⟩] } with
         bankBits := [⟨vs.map .constE, false⟩] }, []) := by
    simp only [addSYCLIntelBankBitsAttr, evalBankBitsArgs_const_ok vs hnn,
      hcons, Bool.true_eq_false, and_false, false_and, and_false, if_false,
      hD, List.head?_nil, hcast, bankBitsFinish, hC, Bool.false_eq_true,
      List.nil_append]
    rw [ensureImplicitMemory_bankBits]
    simp [hDb]
  have hnb : (addSYCLIntelBankBitsAttr C D (vs.map .constE)).1.numBanks =
      [⟨.intLit ((2 : Int) ^ n), true⟩] := by
    rw [hstep]
    simp [ensureImplicitMemory_numBanks]
  have hbb : (addSYCLIntelBankBitsAttr C D (vs.map .constE)).1.bankBits =
      [⟨vs.map .constE, false⟩] := by
    rw [hstep]
  refine ⟨hnb, hbb, by rw [hstep], fun v hv hp => ⟨fun hceil => ?_,
    fun hceil => ?_⟩⟩
  · exact numBanksExplicitReplacesImplicit _ ((2 : Int) ^ n) v C hnb hv hp
      (by
        intro bba hbba
        rw [hbb] at hbba
        simp only [List.head?_cons, Option.mem_def, Option.some.injEq]
          at hbba
        rw [← hbba]
        simp [List.length_map, hn, hceil]) hC
  · exact numBanksBankBitsConflict _ v C ⟨vs.map .constE, false⟩
      (by rw [hbb]; rfl) hv hp (by simp only [List.length_map, hn]; omega)

/-- Claim C1 witness: bank_bits(0,1) synthesizes implicit num_banks 4;
explicit num_banks(4) is then accepted and replaces it, while
num_banks(8) is diagnosed as conflicting and not attached. -/
theorem claim1_witness :
    (addSYCLIntelBankBitsAttr C0 emptyDecl
        [AttrExpr.constE 0, AttrExpr.constE 1]).1.numBanks =
      [⟨.intLit 4, true⟩] ∧
    (addSYCLIntelNumBanksAttr C0
        (addSYCLIntelBankBitsAttr C0 emptyDecl
          [AttrExpr.constE 0, AttrExpr.constE 1]).1
        (.intLit 4)).1.numBanks = [⟨.constE 4, false⟩] ∧
    addSYCLIntelNumBanksAttr C0
        (addSYCLIntelBankBitsAttr C0 emptyDecl
          [AttrExpr.constE 0, AttrExpr.constE 1]).1
        (.intLit 8) =
      ((addSYCLIntelBankBitsAttr C0 emptyDecl
          [AttrExpr.constE 0, AttrExpr.constE 1]).1,
        [.bankBitsNumBanksConflict]) := by
  have h := claim1_bankBits_numBanks_synthesis [0, 1] C0 emptyDecl 2
    (by decide) (by decide) (by decide) (by decide) (by decide) (by decide)
    (by decide) (by decide)
  exact ⟨h.1, ((h.2.2.2 4 (by decide) (by decide)).1 (by decide)).1,
    (h.2.2.2 8 (by decide) (by decide)).2 (by decide)⟩

/-- CheckWorkGroupSize on fully constant natural operands reduces to the
divisibility test on the last dimension. -/
theorem checkWorkGroupSize_const (n x y z : Nat) :
    checkWorkGroupSize (.constE (n : Int)) (.constE (x : Int))
      (some (.constE (y : Int))) (some (.constE (z : Int))) =
    decide (z % n ≠ 0) := by
  simp [checkWorkGroupSize, AttrExpr.asConstantExpr, optDimConst]

/-- CheckMaxAllowedWorkGroupSize in SYCL device mode on fully constant
natural operands reduces to the pointwise exceed test after the reordering
(which reverses both triples, so the comparison is pointwise in the
original order). -/
theorem checkMaxAllowedWorkGroupSize_const (a b c d e f : Nat) :
    checkMaxAllowedWorkGroupSize true (.constE (a : Int))
      (some (.constE (b : Int))) (some (.constE (c : Int)))
      (.constE (d : Int)) (.constE (e : Int)) (.constE (f : Int)) =
    (decide (f < c) || decide (e < b) || decide (d < a)) := by
  simp [checkMaxAllowedWorkGroupSize, AttrExpr.asConstantExpr, optDimConst]

/-- Claim C6: with reqd_work_group_size and num_simd_work_items both fully
known, whichever of the two arrives second is diagnosed with the
divisibility violation and dropped exactly when the num_simd_work_items
value does not evenly divide the last (fastest-incrementing)
reqd_work_group_size dimension, and is attached silently otherwise. -/
theorem claim6_numSimd_divisibility (x y z n : Nat) (hx : 0 < x)
    (hy : 0 < y) (hz : 0 < z) (hn : 0 < n) (C : Ctx) :
    (addSYCLIntelNumSimdWorkItemsAttr C
        (reqdDecl (x : Int) (y : Int) (z : Int)) (.intLit (n : Int)) =
      if z % n = 0 then
        ({ reqdDecl (x : Int) (y : Int) (z : Int) with
           numSimd := [⟨.constE (n : Int), false⟩] }, [])
      else
        (reqdDecl (x : Int) (y : Int) (z : Int),
          [.numKernelWrongReqdWgSize, .noteConflicting])) ∧
    (addSYCLReqdWorkGroupSizeAttr C (nsDecl (n : Int)) (.intLit (x : Int))
        (some (.intLit (y : Int))) (some (.intLit (z : Int))) =
      if z % n = 0 then
        ({ nsDecl (n : Int) with
           reqdWGS := [⟨.constE (x : Int), some (.constE (y : Int)),
             some (.constE (z : Int))⟩] }, [])
      else
        (nsDecl (n : Int),
          [.numKernelWrongReqdWgSize, .noteConflicting])) := by
  have hn' : ¬((n : Int) ≤ 0) := by exact_mod_cast not_le.mpr hn
  have hx' : ¬((x : Int) ≤ 0) := by exact_mod_cast not_le.mpr hx
  have hy' : ¬((y : Int) ≤ 0) := by exact_mod_cast not_le.mpr hy
  have hz' : ¬((z : Int) ≤ 0) := by exact_mod_cast not_le.mpr hz
  constructor
  · by_cases hmod : z % n = 0 <;>
      simp [addSYCLIntelNumSimdWorkItemsAttr, AttrExpr.evalAsInt, hn',
        reqdDecl, emptyDecl, numSimdReqdCheckAndAttach,
        checkWorkGroupSize_const, hmod]
  · by_cases hmod : z % n = 0 <;>
      simp [addSYCLReqdWorkGroupSizeAttr, convertWGSArg, convertOptWGSArg,
        AttrExpr.evalAsInt, hx', hy', hz', nsDecl, emptyDecl, reqdMaxCheck,
        reqdSimdCheck, reqdDupCheckAndAttach, checkWorkGroupSize_const,
        hmod]

/-- Claim C6 witness: with reqd_work_group_size(4,4,16),
num_simd_work_items(5) is rejected (16 mod 5 is not 0) and
num_simd_work_items(4) accepted, in either arrival order. -/
theorem claim6_witness :
    (addSYCLIntelNumSimdWorkItemsAttr C0 (reqdDecl 4 4 16) (.intLit 5) =
      (reqdDecl 4 4 16,
        [.numKernelWrongReqdWgSize, .noteConflicting])) ∧
    (addSYCLIntelNumSimdWorkItemsAttr C0 (reqdDecl 4 4 16) (.intLit 4) =
      ({ reqdDecl 4 4 16 with numSimd := [⟨.constE 4, false⟩] }, [])) ∧
    (addSYCLReqdWorkGroupSizeAttr C0 (nsDecl 5) (.intLit 4)
        (some (.intLit 4)) (some (.intLit 16)) =
      (nsDecl 5, [.numKernelWrongReqdWgSize, .noteConflicting])) := by
  have h5 := claim6_numSimd_divisibility 4 4 16 5 (by decide) (by decide)
    (by decide) (by decide) C0
  have h4 := claim6_numSimd_divisibility 4 4 16 4 (by decide) (by decide)
    (by decide) (by decide) C0
  refine ⟨?_, ?_, ?_⟩
  · have := h5.1
    norm_num at this ⊢
    exact this
  · have := h4.1
    norm_num at this ⊢
    exact this
  · have := h5.2
    norm_num at this ⊢
    exact this

/-- Claim C7: with reqd_work_group_size and max_work_group_size both fully
known in SYCL device mode, whichever of the two arrives second is diagnosed
with the conflicting-attributes error (naming both) and dropped exactly
when some required dimension exceeds the corresponding maximum dimension,
and attached silently otherwise. -/
theorem claim7_reqd_max_bound (a b c d e f : Nat) (ha : 0 < a)
    (hb : 0 < b) (hc : 0 < c) (hd : 0 < d) (he : 0 < e) (hf : 0 < f)
    (C : Ctx) (hS : C.syclIsDevice = true) :
    (addSYCLIntelMaxWorkGroupSizeAttr C (reqdDecl (a : Int) (b : Int)
        (c : Int)) (.intLit (d : Int)) (.intLit (e : Int))
        (.intLit (f : Int)) =
      if a ≤ d ∧ b ≤ e ∧ c ≤ f then
        ({ reqdDecl (a : Int) (b : Int) (c : Int) with
           maxWGS := [⟨.constE (d : Int), .constE (e : Int),
             .constE (f : Int)⟩] }, [])
      else
        (reqdDecl (a : Int) (b : Int) (c : Int),
          [.conflictingAttributes, .noteConflicting])) ∧
    (addSYCLReqdWorkGroupSizeAttr C (maxDecl (d : Int) (e : Int) (f : Int))
        (.intLit (a : Int)) (some (.intLit (b : Int)))
        (some (.intLit (c : Int))) =
      if a ≤ d ∧ b ≤ e ∧ c ≤ f then
        ({ maxDecl (d : Int) (e : Int) (f : Int) with
           reqdWGS := [⟨.constE (a : Int), some (.constE (b : Int)),
             some (.constE (c : Int))⟩] }, [])
      else
        (maxDecl (d : Int) (e : Int) (f : Int),
          [.conflictingAttributes, .noteConflicting])) := by
  have ha' : ¬((a : Int) ≤ 0) := by exact_mod_cast not_le.mpr ha
  have hb' : ¬((b : Int) ≤ 0) := by exact_mod_cast not_le.mpr hb
  have hc' : ¬((c : Int) ≤ 0) := by exact_mod_cast not_le.mpr hc
  have hd' : ¬((d : Int) ≤ 0) := by exact_mod_cast not_le.mpr hd
  have he' : ¬((e : Int) ≤ 0) := by exact_mod_cast not_le.mpr he
  have hf' : ¬((f : Int) ≤ 0) := by exact_mod_cast not_le.mpr hf
  have hcheck : checkMaxAllowedWorkGroupSize C.syclIsDevice
      (.constE (a : Int)) (some (.constE (b : Int)))
      (some (.constE (c : Int))) (.constE (d : Int)) (.constE (e : Int))
      (.constE (f : Int)) =
      (decide (f < c) || decide (e < b) || decide (d < a)) := by
    rw [hS, checkMaxAllowedWorkGroupSize_const]
  constructor
  · by_cases hok : a ≤ d ∧ b ≤ e ∧ c ≤ f
    · have hno : (decide (f < c) || decide (e < b) || decide (d < a))
          = false := by
        simp only [Bool.or_eq_false_iff, decide_eq_false_iff_not, not_lt]
        exact ⟨⟨hok.2.2, hok.2.1⟩, hok.1⟩
      simp [addSYCLIntelMaxWorkGroupSizeAttr, convertWGSArg,
        AttrExpr.evalAsInt, hd', he', hf', reqdDecl, emptyDecl, hcheck,
        hno, maxWGSGlobalDimCheck, maxWGSDupCheckAndAttach, hok]
    · have hyes : (decide (f < c) || decide (e < b) || decide (d < a))
          = true := by
        simp only [Bool.or_eq_true, decide_eq_true_eq]
        omega
      simp [addSYCLIntelMaxWorkGroupSizeAttr, convertWGSArg,
        AttrExpr.evalAsInt, hd', he', hf', reqdDecl, emptyDecl, hcheck,
        hyes, hok]
  · by_cases hok : a ≤ d ∧ b ≤ e ∧ c ≤ f
    · have hno : (decide (f < c) || decide (e < b) || decide (d < a))
          = false := by
        simp only [Bool.or_eq_false_iff, decide_eq_false_iff_not, not_lt]
        exact ⟨⟨hok.2.2, hok.2.1⟩, hok.1⟩
      simp [addSYCLReqdWorkGroupSizeAttr, convertWGSArg, convertOptWGSArg,
        AttrExpr.evalAsInt, ha', hb', hc', maxDecl, emptyDecl,
        reqdMaxCheck, reqdSimdCheck, reqdDupCheckAndAttach, hcheck, hno,
        hok]
    · have hyes : (decide (f < c) || decide (e < b) || decide (d < a))
          = true := by
        simp only [Bool.or_eq_true, decide_eq_true_eq]
        omega
      simp [addSYCLReqdWorkGroupSizeAttr, convertWGSArg, convertOptWGSArg,
        AttrExpr.evalAsInt, ha', hb', hc', maxDecl, emptyDecl,
        reqdMaxCheck, hcheck, hyes, hok]

/-- Claim C7 witness: reqd_work_group_size(4,4,16) with
max_work_group_size(4,4,15) conflicts (16 exceeds 15) in either arrival
order, and with max_work_group_size(4,4,16) it is accepted. -/
theorem claim7_witness :
    (addSYCLIntelMaxWorkGroupSizeAttr C0 (reqdDecl 4 4 16) (.intLit 4)
        (.intLit 4) (.intLit 15) =
      (reqdDecl 4 4 16, [.conflictingAttributes, .noteConflicting])) ∧
    (addSYCLReqdWorkGroupSizeAttr C0 (maxDecl 4 4 15) (.intLit 4)
        (some (.intLit 4)) (some (.intLit 16)) =
      (maxDecl 4 4 15, [.conflictingAttributes, .noteConflicting])) ∧
    (addSYCLIntelMaxWorkGroupSizeAttr C0 (reqdDecl 4 4 16) (.intLit 4)
        (.intLit 4) (.intLit 16) =
      ({ reqdDecl 4 4 16 with
         maxWGS := [⟨.constE 4, .constE 4, .constE 16⟩] }, [])) := by
  have hbad := claim7_reqd_max_bound 4 4 16 4 4 15 (by decide) (by decide)
    (by decide) (by decide) (by decide) (by decide) C0 (by decide)
  have hgood := claim7_reqd_max_bound 4 4 16 4 4 16 (by decide)
    (by decide) (by decide) (by decide) (by decide) (by decide) C0
    (by decide)
  refine ⟨?_, ?_, ?_⟩
  · have := hbad.1
    norm_num at this ⊢
    exact this
  · have := hbad.2
    norm_num at this ⊢
    exact this
  · have := hgood.1
    norm_num at this ⊢
    exact this

/-- AnyWorkGroupSizesDiffer on two fully constant triples is the pointwise
disequality test. -/
theorem anyWorkGroupSizesDiffer_const (p q r s t u : Int) :
    anyWorkGroupSizesDiffer (some (.constE p)) (some (.constE q))
      (some (.constE r)) (some (.constE s)) (some (.constE t))
      (some (.constE u)) =
    (decide (p ≠ s) || decide (q ≠ t) || decide (r ≠ u)) := by
  by_cases h1 : p = s <;> by_cases h2 : q = t <;> by_cases h3 : r = u <;>
    simp [anyWorkGroupSizesDiffer, areArgValuesIdentical,
      AttrExpr.asConstantExpr, h1, h2, h3]

/-- AllWorkGroupSizesSame on two fully constant triples is the pointwise
equality test. -/
theorem allWorkGroupSizesSame_const (p q r s t u : Int) :
    allWorkGroupSizesSame (some (.constE p)) (some (.constE q))
      (some (.constE r)) (some (.constE s)) (some (.constE t))
      (some (.constE u)) =
    (decide (p = s) && decide (q = t) && decide (r = u)) := by
  by_cases h1 : p = s <;> by_cases h2 : q = t <;> by_cases h3 : r = u <;>
    simp [allWorkGroupSizesSame, areArgValuesIdentical,
      AttrExpr.asConstantExpr, h1, h2, h3]

/-- Claim C2 (amended): for the embedded non-repeatable kinds whose adders
implement the value-comparing duplicate logic — bank_width, num_banks (on a
declaration without a bank_bits sibling), num_simd_work_items,
reqd_work_group_size, max_work_group_size, and the redeclaration merge path
of bank_width — an arriving decoration with a known constant value
different from that of the attached explicit instance is diagnosed with a
duplicate diagnostic referencing both locations, the existing decoration is
kept unchanged, and the new one is not attached.  The bank_bits kind is
excluded: its handler warns but still attaches the new instance (see the
counterexample). -/
theorem claim2_amended_conflict_keeps_first (v w : Int) (hne : w ≠ v)
    (hw : 0 < w) (hpw : natIsPow2 w.toNat = true) (a b c d e f : Nat)
    (hd : 0 < d) (he : 0 < e) (hf : 0 < f)
    (hdiff : ¬(d = a ∧ e = b ∧ f = c)) (C : Ctx)
    (hC : (C.syclIsDevice && C.fpgaMemVarInvalid) = false) :
    addSYCLIntelBankWidthAttr C (bwMemDecl v) (.intLit w) =
      (bwMemDecl v, [.duplicateWarn, .notePrevious]) ∧
    addSYCLIntelNumBanksAttr C (nbMemDecl v) (.intLit w) =
      (nbMemDecl v, [.duplicateWarn, .notePrevious]) ∧
    addSYCLIntelNumSimdWorkItemsAttr C (nsDecl v) (.intLit w) =
      (nsDecl v, [.duplicateWarn, .notePrevious]) ∧
    addSYCLReqdWorkGroupSizeAttr C (reqdDecl (a : Int) (b : Int) (c : Int))
        (.intLit (d : Int)) (some (.intLit (e : Int)))
        (some (.intLit (f : Int))) =
      (reqdDecl (a : Int) (b : Int) (c : Int),
        [.duplicateErr, .notePrevious]) ∧
    addSYCLIntelMaxWorkGroupSizeAttr C
        (maxDecl (a : Int) (b : Int) (c : Int)) (.intLit (d : Int))
        (.intLit (e : Int)) (.intLit (f : Int)) =
      (maxDecl (a : Int) (b : Int) (c : Int),
        [.duplicateWarn, .notePrevious]) ∧
    mergeSYCLIntelBankWidthAttr (bwMemDecl v) ⟨.constE w, false⟩ =
      (none, [.duplicateWarn, .notePrevious]) := by
  have hd' : ¬((d : Int) ≤ 0) := by exact_mod_cast not_le.mpr hd
  have he' : ¬((e : Int) ≤ 0) := by exact_mod_cast not_le.mpr he
  have hf' : ¬((f : Int) ≤ 0) := by exact_mod_cast not_le.mpr hf
  have hdiffI : (d : Int) ≠ (a : Int) ∨ (e : Int) ≠ (b : Int) ∨
      (f : Int) ≠ (c : Int) := by
    have : d ≠ a ∨ e ≠ b ∨ f ≠ c := by tauto
    exact_mod_cast this
  have hany : (decide ((d : Int) ≠ (a : Int)) ||
      decide ((e : Int) ≠ (b : Int)) ||
      decide ((f : Int) ≠ (c : Int))) = true := by
    simp only [Bool.or_eq_true, decide_eq_true_eq]
    tauto
  refine ⟨?_, ?_, ?_, ?_, ?_, ?_⟩
  · simp [addSYCLIntelBankWidthAttr, AttrExpr.evalAsInt, not_le.mpr hw,
      hpw, hC, bwMemDecl, emptyDecl, AttrExpr.asConstantExpr, hne]
  · simp [addSYCLIntelNumBanksAttr, AttrExpr.evalAsInt, not_le.mpr hw,
      hpw, numBanksAfterChecks, hC, nbMemDecl, emptyDecl,
      AttrExpr.asConstantExpr, hne]
  · simp [addSYCLIntelNumSimdWorkItemsAttr, AttrExpr.evalAsInt,
      not_le.mpr hw, nsDecl, emptyDecl, AttrExpr.asConstantExpr, hne]
  · simp [addSYCLReqdWorkGroupSizeAttr, convertWGSArg, convertOptWGSArg,
      AttrExpr.evalAsInt, hd', he', hf', reqdDecl, emptyDecl,
      reqdMaxCheck, reqdSimdCheck, reqdDupCheckAndAttach,
      anyWorkGroupSizesDiffer_const, hany]
    intro h1 h2 h3
    exact absurd ⟨h1, h2, h3⟩ hdiff
  · simp [addSYCLIntelMaxWorkGroupSizeAttr, convertWGSArg,
      AttrExpr.evalAsInt, hd', he', hf', maxDecl, emptyDecl,
      maxWGSGlobalDimCheck, maxWGSDupCheckAndAttach,
      anyWorkGroupSizesDiffer_const, hany]
    intro h1 h2 h3
    exact absurd ⟨h1, h2, h3⟩ hdiff
  · simp [mergeSYCLIntelBankWidthAttr, bwMemDecl, emptyDecl,
      AttrExpr.asConstantExpr, Ne.symm hne]

/-- Claim C2 witness: reqd_work_group_size(2,2,2) followed by
reqd_work_group_size(4,4,4) yields the duplicate error referencing both
locations and the stored attribute still holds (2,2,2); likewise
bank_width(8) arriving after bank_width(4) is dropped with a warning. -/
theorem claim2_witness :
    (addSYCLReqdWorkGroupSizeAttr C0 (reqdDecl 2 2 2) (.intLit 4)
        (some (.intLit 4)) (some (.intLit 4)) =
      (reqdDecl 2 2 2, [.duplicateErr, .notePrevious])) ∧
    (addSYCLIntelBankWidthAttr C0 (bwMemDecl 4) (.intLit 8) =
      (bwMemDecl 4, [.duplicateWarn, .notePrevious])) := by
  have h := claim2_amended_conflict_keeps_first 4 8 (by decide)
    (by decide) (by decide) 2 2 2 4 4 4 (by decide) (by decide) (by decide)
    (by decide) C0 (by decide)
  refine ⟨?_, ?_⟩
  · have := h.2.2.2.1
    norm_num at this ⊢
    exact this
  · exact h.1

/-- Claim C5 (amended): for the embedded kinds with value-comparing
duplicate logic — bank_width, num_banks, num_simd_work_items,
reqd_work_group_size and max_work_group_size — attaching the same literal
arguments twice leaves exactly one instance and the second attachment is a
silent no-op.  The bank_bits kind is excluded: its handler warns on the
exact duplicate and appends a second instance (see the counterexample). -/
theorem claim5_amended_idempotent_duplicate (v : Int) (hv : 0 < v)
    (hp : natIsPow2 v.toNat = true) (a b c : Nat) (ha : 0 < a)
    (hb : 0 < b) (hc : 0 < c) (C : Ctx)
    (hC : (C.syclIsDevice && C.fpgaMemVarInvalid) = false) :
    (addSYCLIntelBankWidthAttr C emptyDecl (.intLit v) =
        (bwMemDecl v, []) ∧
      addSYCLIntelBankWidthAttr C (bwMemDecl v) (.intLit v) =
        (bwMemDecl v, [])) ∧
    (addSYCLIntelNumBanksAttr C emptyDecl (.intLit v) =
        (nbMemDecl v, []) ∧
      addSYCLIntelNumBanksAttr C (nbMemDecl v) (.intLit v) =
        (nbMemDecl v, [])) ∧
    (addSYCLIntelNumSimdWorkItemsAttr C emptyDecl (.intLit v) =
        (nsDecl v, []) ∧
      addSYCLIntelNumSimdWorkItemsAttr C (nsDecl v) (.intLit v) =
        (nsDecl v, [])) ∧
    (addSYCLReqdWorkGroupSizeAttr C emptyDecl (.intLit (a : Int))
        (some (.intLit (b : Int))) (some (.intLit (c : Int))) =
        (reqdDecl (a : Int) (b : Int) (c : Int), []) ∧
      addSYCLReqdWorkGroupSizeAttr C (reqdDecl (a : Int) (b : Int)
          (c : Int)) (.intLit (a : Int)) (some (.intLit (b : Int)))
        (some (.intLit (c : Int))) =
        (reqdDecl (a : Int) (b : Int) (c : Int), [])) ∧
    (addSYCLIntelMaxWorkGroupSizeAttr C emptyDecl (.intLit (a : Int))
        (.intLit (b : Int)) (.intLit (c : Int)) =
        (maxDecl (a : Int) (b : Int) (c : Int), []) ∧
      addSYCLIntelMaxWorkGroupSizeAttr C
          (maxDecl (a : Int) (b : Int) (c : Int)) (.intLit (a : Int))
        (.intLit (b : Int)) (.intLit (c : Int)) =
        (maxDecl (a : Int) (b : Int) (c : Int), [])) := by
  have ha' : ¬((a : Int) ≤ 0) := by exact_mod_cast not_le.mpr ha
  have hb' : ¬((b : Int) ≤ 0) := by exact_mod_cast not_le.mpr hb
  have hc' : ¬((c : Int) ≤ 0) := by exact_mod_cast not_le.mpr hc
  refine ⟨⟨?_, ?_⟩, ⟨?_, ?_⟩, ⟨?_, ?_⟩, ⟨?_, ?_⟩, ⟨?_, ?_⟩⟩
  · simp [addSYCLIntelBankWidthAttr, AttrExpr.evalAsInt, not_le.mpr hv,
      hp, hC, emptyDecl, attachBankWidth, ensureImplicitMemory, bwMemDecl]
  · simp [addSYCLIntelBankWidthAttr, AttrExpr.evalAsInt, not_le.mpr hv,
      hp, hC, bwMemDecl, emptyDecl, AttrExpr.asConstantExpr]
  · simp [addSYCLIntelNumBanksAttr, AttrExpr.evalAsInt, not_le.mpr hv,
      hp, numBanksAfterChecks, hC, emptyDecl, attachNumBanks,
      ensureImplicitMemory, nbMemDecl]
  · simp [addSYCLIntelNumBanksAttr, AttrExpr.evalAsInt, not_le.mpr hv,
      hp, numBanksAfterChecks, hC, nbMemDecl, emptyDecl,
      AttrExpr.asConstantExpr]
  · simp [addSYCLIntelNumSimdWorkItemsAttr, AttrExpr.evalAsInt,
      not_le.mpr hv, emptyDecl, numSimdReqdCheckAndAttach, nsDecl]
  · simp [addSYCLIntelNumSimdWorkItemsAttr, AttrExpr.evalAsInt,
      not_le.mpr hv, nsDecl, emptyDecl, AttrExpr.asConstantExpr]
  · simp [addSYCLReqdWorkGroupSizeAttr, convertWGSArg, convertOptWGSArg,
      AttrExpr.evalAsInt, ha', hb', hc', emptyDecl, reqdMaxCheck,
      reqdSimdCheck, reqdDupCheckAndAttach, reqdDecl]
  · simp [addSYCLReqdWorkGroupSizeAttr, convertWGSArg, convertOptWGSArg,
      AttrExpr.evalAsInt, ha', hb', hc', reqdDecl, emptyDecl,
      reqdMaxCheck, reqdSimdCheck, reqdDupCheckAndAttach,
      anyWorkGroupSizesDiffer_const, allWorkGroupSizesSame_const]
  · simp [addSYCLIntelMaxWorkGroupSizeAttr, convertWGSArg,
      AttrExpr.evalAsInt, ha', hb', hc', emptyDecl, maxWGSGlobalDimCheck,
      maxWGSDupCheckAndAttach, maxDecl]
  · simp [addSYCLIntelMaxWorkGroupSizeAttr, convertWGSArg,
      AttrExpr.evalAsInt, ha', hb', hc', maxDecl, emptyDecl,
      maxWGSGlobalDimCheck, maxWGSDupCheckAndAttach,
      anyWorkGroupSizesDiffer_const, allWorkGroupSizesSame_const]

/-- Claim C5 witness: bank_width(8) attached twice leaves one instance with
stored value 8 and the second attachment emits no diagnostic; the same for
reqd_work_group_size(2,2,2). -/
theorem claim5_witness :
    (addSYCLIntelBankWidthAttr C0 (bwMemDecl 8) (.intLit 8) =
      (bwMemDecl 8, [])) ∧
    (addSYCLReqdWorkGroupSizeAttr C0 (reqdDecl 2 2 2) (.intLit 2)
        (some (.intLit 2)) (some (.intLit 2)) = (reqdDecl 2 2 2, [])) := by
  have h := claim5_amended_idempotent_duplicate 8 (by decide) (by decide)
    2 2 2 (by decide) (by decide) (by decide) C0 (by decide)
  refine ⟨h.1.2, ?_⟩
  have := h.2.2.2.1.2
  norm_num at this ⊢
  exact this

end SemaAttr
